import Mathlib

/-!
Shallow embedding of the pipeline orchestration and reliability layer of the
dropshipping repository: the Redis-backed work queue, per-(stage, item) locks,
retry/dead-letter policy, stage handlers, and the Shopify publish adapter.

Source files embedded:
- `src/services/brain/index.ts` (dispatcher, locks, retries, stage handlers)
- `src/services/brain/shopify-sync.ts` (`ShopifySyncService`)
- `src/shared/types.ts` (queue names)

Conventions of the embedding:
- Redis string values are either text (lock tokens) or decimal integers
  (retry counters); we model the value as a sum `RVal` so that `INCR` acts on
  the integer form directly instead of re-parsing decimal strings.
- Key/value and queue states are association lists with first-match lookup;
  `set` prepends a binding (shadowing), `del` removes every binding of a key.
- Each Redis command and each Lua `EVAL` is a single atomic transition,
  matching Redis's single-threaded execution of commands and scripts.
- Wall-clock sleeping is reported as a `slept` event; timestamps are passed in
  as natural numbers.
-/

namespace Dropship

/-- Value stored at a Redis key: free-form text, or a decimal integer as used
by `INCR`-managed counters. -/
inductive RVal where
  | str (s : String)
  | int (n : Nat)
  deriving Repr, DecidableEq

/-- One Redis entry: the stored value plus its remaining TTL in seconds
(`none` means no expiry). -/
structure RedisEntry where
  value : RVal
  ttl : Option Nat
  deriving Repr, DecidableEq

/-- The Redis key/value store, as an association list with first-match
lookup. -/
abbrev RedisKV := List (String × RedisEntry)

/-- First-match lookup of a key. -/
def kvLookup (kv : RedisKV) (k : String) : Option RedisEntry :=
  match kv with
  | [] => none
  | (k2, e) :: rest => if k2 = k then some e else kvLookup rest k

/-- Bind a key to an entry (shadowing any older binding). -/
def kvSet (kv : RedisKV) (k : String) (e : RedisEntry) : RedisKV :=
  (k, e) :: kv

/-- Remove every binding of a key (Redis `DEL`). -/
def kvDel (kv : RedisKV) (k : String) : RedisKV :=
  match kv with
  | [] => []
  | (k2, e) :: rest => if k2 = k then kvDel rest k else (k2, e) :: kvDel rest k

/-- Redis `GET`: the stored value, if the key exists. -/
def redisGet (kv : RedisKV) (k : String) : Option RVal :=
  (kvLookup kv k).map (fun e => e.value)

/-- Redis `SET key value EX ttl NX` — set only if absent, with a TTL; returns
`none` (the call did not return OK) and the unchanged store when the key is
already present. One atomic command. -/
def redisSetNxEx (kv : RedisKV) (k : String) (v : RVal) (ttl : Nat) :
    Option RedisKV :=
  match kvLookup kv k with
  | some _ => none
  | none => some (kvSet kv k ⟨v, some ttl⟩)

/-- Redis `INCR`: increment the integer value of the key (missing or
non-integer treated as 0, as only counters are ever incremented here),
preserving the entry's TTL; returns the new value. -/
def redisIncr (kv : RedisKV) (k : String) : Nat × RedisKV :=
  let old := kvLookup kv k
  let n :=
    match old with
    | some ⟨RVal.int m, _⟩ => m
    | _ => 0
  (n + 1, kvSet kv k ⟨RVal.int (n + 1), (old.bind (fun e => e.ttl))⟩)

/-- Redis `EXPIRE`: refresh the TTL of an existing key. -/
def redisExpire (kv : RedisKV) (k : String) (ttl : Nat) : RedisKV :=
  match kvLookup kv k with
  | some e => kvSet kv k ⟨e.value, some ttl⟩
  | none => kv

/-! ### Work queue (Redis lists)

A topic is a Redis list. `LPUSH` inserts at the head of the list and
`BLPOP` removes from the head of the first non-empty list among the keys it
is given, in the order given. -/

/-- Queue state: topic name to list of payloads, head first. -/
abbrev Queues := List (String × List String)

/-- Contents of one topic (first-match lookup, empty if absent). -/
def qGet (qs : Queues) (t : String) : List String :=
  match qs with
  | [] => []
  | (t2, l) :: rest => if t2 = t then l else qGet rest t

/-- Replace the contents of one topic (shadowing). -/
def qSet (qs : Queues) (t : String) (l : List String) : Queues :=
  (t, l) :: qs

/-- Redis `LPUSH topic v`: insert `v` at the head of the topic's list. -/
def redisLpush (qs : Queues) (t : String) (v : String) : Queues :=
  qSet qs t (v :: qGet qs t)

/-- Redis `BLPOP t1 .. tn 0`: take the head element of the first non-empty
topic, in the order the topics are listed; `none` models the call still
blocking (every listed topic empty). -/
def blpopMulti (qs : Queues) (topics : List String) :
    Option (String × String × Queues) :=
  match topics with
  | [] => none
  | t :: ts =>
    match qGet qs t with
    | [] => blpopMulti qs ts
    | v :: rest => some (t, v, qSet qs t rest)

/-! ### Queue names (`QUEUES` in `src/shared/types.ts`) -/

def QUEUE_SCRAPE : String := "queue:scrape"
def QUEUE_DISCOVERY : String := "queue:discovery"
def QUEUE_SOURCING : String := "queue:sourcing"
def QUEUE_COPYWRITE : String := "queue:copywrite"
def QUEUE_VIDEO : String := "queue:video"

/-- Topic list the brain worker blocks on, in its priority order. -/
def workerTopics : List String :=
  [QUEUE_VIDEO, QUEUE_COPYWRITE, QUEUE_SOURCING, QUEUE_DISCOVERY]

/-! ### Job locks (`acquireJobLock` / `releaseJobLock`) -/

def JOB_LOCK_TTL_SECONDS : Nat := 10 * 60
def MAX_STAGE_RETRIES : Nat := 3
def RETRY_TTL_SECONDS : Nat := 24 * 60 * 60

/-- A held job lock: the Redis key and this owner's random token. -/
structure JobLock where
  key : String
  token : String
  deriving Repr, DecidableEq

/-- Lock key for a (stage topic, item) pair. -/
def lockKey (queueName productId : String) : String :=
  "lock:" ++ queueName ++ ":" ++ productId

/-- `acquireJobLock`: `SET key token EX 600 NX`; `none` when the key already
exists (duplicate in-flight job). The fresh random token is passed in. -/
def acquireJobLock (kv : RedisKV) (queueName productId token : String) :
    Option JobLock × RedisKV :=
  let key := lockKey queueName productId
  match redisSetNxEx kv key (RVal.str token) JOB_LOCK_TTL_SECONDS with
  | none => (none, kv)
  | some kv2 => (some ⟨key, token⟩, kv2)

/-- The `RELEASE_LOCK_LUA` script: one atomic compare-then-delete — delete the
key only if it still stores this owner's token; otherwise change nothing.
Returns the number of keys deleted, as the script does. -/
def releaseLockScript (kv : RedisKV) (key token : String) : Nat × RedisKV :=
  if redisGet kv key = some (RVal.str token) then (1, kvDel kv key)
  else (0, kv)

/-- `releaseJobLock`: run the release script for this lock's key and token. -/
def releaseJobLock (kv : RedisKV) (lock : JobLock) : RedisKV :=
  (releaseLockScript kv lock.key lock.token).2

/-! ### Data model (Prisma `Product`, `AgentLog`; DLQ records) -/

/-- The `ProductStatus` enum. -/
inductive ProductStatus where
  | DETECTED
  | VETTED
  | APPROVED
  | REJECTED
  | READY_FOR_VIDEO
  | READY_TO_LIST
  | LISTED
  deriving Repr, DecidableEq

/-- Result of the copywriter agent, stored as the item's `marketingCopy`. -/
structure CopywritingResult where
  title : String
  description_md : String
  ad_hooks : List String
  deriving Repr, DecidableEq

/-- Result of the video-script agent, stored as the item's `videoScript`;
its scenes are opaque to the orchestration layer. -/
structure VideoScriptResult where
  scenes : List String
  deriving Repr, DecidableEq

/-- One row of the `Product` table (the fields the core reads or writes).
Monetary amounts are rationals: decimal string formatting is abstracted. -/
structure Product where
  id : String
  externalUrl : String
  title : Option String
  description : Option String
  status : ProductStatus
  viralScore : Option Int
  sentiment : Option Int
  supplierUrl : Option String
  costPrice : Option Rat
  marketingCopy : Option CopywritingResult
  videoScript : Option VideoScriptResult
  images : List String
  shopifyProductId : Option String
  shopifyProductGid : Option String
  shopifyAdminUrl : Option String
  shopifyVideoMediaId : Option String
  listedAt : Option Nat
  deriving Repr, DecidableEq

/-- One `AgentLog` row (append-only audit log). -/
structure AgentLog where
  agentName : String
  decision : String
  reason : String
  productId : String
  deriving Repr, DecidableEq

/-- The JSON record pushed onto the dead-letter topic. -/
structure DeadLetterRecord where
  productId : String
  stage : String
  error : String
  occurredAt : Nat
  deriving Repr, DecidableEq

/-- Partial update applied by `prisma.product.update` (`ProductUpdateData`):
`none` means the field is not mentioned in the update; for nullable columns a
mentioned field carries `some v` where `v` itself is an `Option`. -/
structure ProductUpdateData where
  status : Option ProductStatus := none
  viralScore : Option Int := none
  sentiment : Option Int := none
  supplierUrl : Option (Option String) := none
  costPrice : Option Rat := none
  marketingCopy : Option CopywritingResult := none
  videoScript : Option VideoScriptResult := none
  shopifyProductId : Option (Option String) := none
  shopifyProductGid : Option (Option String) := none
  shopifyAdminUrl : Option (Option String) := none
  shopifyVideoMediaId : Option (Option String) := none
  listedAt : Option (Option Nat) := none
  deriving Repr

/-- Apply a partial update to one product row. -/
def applyUpdate (p : Product) (d : ProductUpdateData) : Product :=
  { p with
    status := d.status.getD p.status
    viralScore := (d.viralScore.map some).getD p.viralScore
    sentiment := (d.sentiment.map some).getD p.sentiment
    supplierUrl := d.supplierUrl.getD p.supplierUrl
    costPrice := (d.costPrice.map some).getD p.costPrice
    marketingCopy := (d.marketingCopy.map some).getD p.marketingCopy
    videoScript := (d.videoScript.map some).getD p.videoScript
    shopifyProductId := d.shopifyProductId.getD p.shopifyProductId
    shopifyProductGid := d.shopifyProductGid.getD p.shopifyProductGid
    shopifyAdminUrl := d.shopifyAdminUrl.getD p.shopifyAdminUrl
    shopifyVideoMediaId := d.shopifyVideoMediaId.getD p.shopifyVideoMediaId
    listedAt := d.listedAt.getD p.listedAt }

/-- `prisma.product.findUnique`. -/
def findProduct (ps : List Product) (id : String) : Option Product :=
  match ps with
  | [] => none
  | p :: rest => if p.id = id then some p else findProduct rest id

/-- `prisma.product.update` on the rows (the row with this id, if any, gets
the partial update). -/
def setProduct (ps : List Product) (id : String) (d : ProductUpdateData) :
    List Product :=
  match ps with
  | [] => []
  | p :: rest =>
    if p.id = id then applyUpdate p d :: rest else p :: setProduct rest id d

/-! ### Shopify catalog model and the publish adapter (`ShopifySyncService`) -/

/-- One variant of a Shopify product (id and price are all the core touches). -/
structure ShopifyVariant where
  id : Nat
  price : Rat
  deriving Repr, DecidableEq

/-- One product resource in the external Shopify catalog. -/
structure ShopifyResource where
  id : String
  gid : String
  title : String
  bodyHtml : String
  vendor : String
  productType : String
  images : List String
  variants : List ShopifyVariant
  media : List String
  deriving Repr, DecidableEq

/-- The external catalog's state, with counters for fresh resource, variant
and media ids. -/
structure ShopifyState where
  resources : List ShopifyResource
  nextId : Nat
  nextMediaId : Nat
  deriving Repr, DecidableEq

/-- API calls the adapter can issue against the catalog platform. -/
inductive ApiCall where
  | createProduct
  | updateProduct (id : String)
  | getProduct (id : String)
  | updateVariant (id : Nat)
  | stagedUploadsCreate
  | uploadToTarget
  | productCreateMedia (gid : String)
  deriving Repr, DecidableEq

/-- `SyncProductInput`: argument of `ShopifySyncService.syncProduct`. -/
structure SyncProductInput where
  title : String
  descriptionHtml : String
  price : Rat
  vendor : String
  images : List String
  videoPath : Option String
  existingProductId : Option String := none
  existingProductGid : Option String := none
  existingVideoMediaId : Option String := none
  deriving Repr, DecidableEq

/-- `SyncProductResult`: what `syncProduct` returns on success. -/
structure SyncProductResult where
  productId : String
  productGid : String
  adminUrl : String
  videoMediaId : Option String
  deriving Repr, DecidableEq

/-- Outcome environment for one `syncProduct` call: which external requests
succeed and which throw (or report user errors). This stands for the network
and the platform's replies, which the adapter cannot control. -/
structure SyncEnv where
  tokenOk : Bool
  baseCallOk : Bool
  variantStepOk : Bool
  stagedUploadOk : Bool
  bytesUploadOk : Bool
  attachCallOk : Bool
  attachUserErrors : Bool
  deriving Repr, DecidableEq

/-- Configured shop domain (`session.shop`, stored without protocol). -/
def shopDomain : String := "my-store.myshopify.com"

/-- Strip a leading protocol, as `buildAdminUrl` does. -/
def stripProtocol (s : String) : String :=
  if s.startsWith "https://" then s.drop 8
  else if s.startsWith "http://" then s.drop 7
  else s

/-- `buildAdminUrl`. -/
def buildAdminUrl (productId : String) : String :=
  "https://" ++ stripProtocol shopDomain ++ "/admin/products/" ++ productId

/-- One line of `convertMarkdownToHtml`'s per-line regex replacements. -/
def mdLine (l : String) : String :=
  if l.startsWith "# " then "<h1>" ++ l.drop 2 ++ "</h1>"
  else if l.startsWith "## " then "<h2>" ++ l.drop 3 ++ "</h2>"
  else if l.startsWith "- " then "<li>" ++ l.drop 2 ++ "</li>"
  else l

/-- `convertMarkdownToHtml`: headline/list-item tags per line, newlines to
`<br />`. -/
def convertMarkdownToHtml (markdown : String) : String :=
  String.intercalate "<br />" ((markdown.splitOn "\x0a").map mdLine)

/-- Find the catalog resource with a given id. -/
def findResource (rs : List ShopifyResource) (id : String) :
    Option ShopifyResource :=
  match rs with
  | [] => none
  | r :: rest => if r.id = id then some r else findResource rest id

/-- Effect of the update path's `PUT products/{id}`: title, body, vendor and
product type of that resource are overwritten; images, variants and media are
not part of the payload and stay as they are. -/
def updateResourceBase (rs : List ShopifyResource) (id : String)
    (data : SyncProductInput) : List ShopifyResource :=
  rs.map (fun r =>
    if r.id = id then
      { r with
        title := data.title
        bodyHtml := data.descriptionHtml
        vendor := data.vendor
        productType := "Dropship" }
    else r)

/-- Effect of `PUT variants/{variantId}` with a new price. -/
def updateVariantPrice (rs : List ShopifyResource) (vid : Nat) (price : Rat) :
    List ShopifyResource :=
  rs.map (fun r =>
    { r with
      variants := r.variants.map (fun v =>
        if v.id = vid then { v with price := price } else v) })

/-- Effect of `productCreateMedia`: the new media id is attached to the
resource with the given GID. -/
def attachMedia (rs : List ShopifyResource) (gid : String) (mediaId : String) :
    List ShopifyResource :=
  rs.map (fun r =>
    if r.gid = gid then { r with media := r.media ++ [mediaId] } else r)

/-- Step 2 of `syncProduct`: attach the video, but only when a video file was
rendered and no media id is already stored. Phases (a) staged-upload request
and (b) byte upload run inside `uploadVideo`, whose failure is caught and
logged (`videoUrl` stays null). Phase (c), `attachVideoToProduct`, is invoked
outside any try/catch: a thrown request error propagates out of `syncProduct`,
while `mediaUserErrors` reported in its response degrade to a null media id. -/
def mediaPhase (env : SyncEnv) (data : SyncProductInput) (shop : ShopifyState)
    (productId productGid : String) (calls : List ApiCall) :
    Except String SyncProductResult × ShopifyState × List ApiCall :=
  let adminUrl := buildAdminUrl productId
  match data.videoPath, data.existingVideoMediaId with
  | some path, none =>
    let uploadOutcome : Option String × List ApiCall :=
      if env.stagedUploadOk then
        if env.bytesUploadOk then
          (some ("staged://" ++ path),
            [ApiCall.stagedUploadsCreate, ApiCall.uploadToTarget])
        else (none, [ApiCall.stagedUploadsCreate, ApiCall.uploadToTarget])
      else (none, [ApiCall.stagedUploadsCreate])
    match uploadOutcome.1 with
    | some _ =>
      if ¬ env.attachCallOk then
        (Except.error "productCreateMedia request failed", shop,
          calls ++ uploadOutcome.2 ++ [ApiCall.productCreateMedia productGid])
      else if env.attachUserErrors then
        (Except.ok ⟨productId, productGid, adminUrl, none⟩, shop,
          calls ++ uploadOutcome.2 ++ [ApiCall.productCreateMedia productGid])
      else
        let mediaId := "gid://shopify/Video/" ++ toString shop.nextMediaId
        (Except.ok ⟨productId, productGid, adminUrl, some mediaId⟩,
          { shop with
            resources := attachMedia shop.resources productGid mediaId
            nextMediaId := shop.nextMediaId + 1 },
          calls ++ uploadOutcome.2 ++ [ApiCall.productCreateMedia productGid])
    | none =>
      (Except.ok ⟨productId, productGid, adminUrl, none⟩, shop,
        calls ++ uploadOutcome.2)
  | _, _ =>
    (Except.ok ⟨productId, productGid, adminUrl, data.existingVideoMediaId⟩,
      shop, calls)

/-- `ShopifySyncService.syncProduct`: create-or-update entrypoint. Returns the
call's outcome, the catalog state after whatever requests went through, and
the list of API calls issued (in order). -/
def syncProduct (env : SyncEnv) (data : SyncProductInput) (shop : ShopifyState) :
    Except String SyncProductResult × ShopifyState × List ApiCall :=
  if ¬ env.tokenOk then
    (Except.error "No Shopify access token configured", shop, [])
  else
    match data.existingProductId with
    | some existingId =>
      if ¬ env.baseCallOk then
        (Except.error "product update request failed", shop,
          [ApiCall.updateProduct existingId])
      else
        let rs1 := updateResourceBase shop.resources existingId data
        let variantOutcome : List ShopifyResource × List ApiCall :=
          if env.variantStepOk then
            match (findResource rs1 existingId).bind
                (fun r => (r.variants.head?).map (fun v => v.id)) with
            | some vid =>
              (updateVariantPrice rs1 vid data.price,
                [ApiCall.getProduct existingId, ApiCall.updateVariant vid])
            | none => (rs1, [ApiCall.getProduct existingId])
          else (rs1, [ApiCall.getProduct existingId])
        let productGid :=
          data.existingProductGid.getD ("gid://shopify/Product/" ++ existingId)
        mediaPhase env data { shop with resources := variantOutcome.1 }
          existingId productGid
          (ApiCall.updateProduct existingId :: variantOutcome.2)
    | none =>
      if ¬ env.baseCallOk then
        (Except.error "product create request failed", shop,
          [ApiCall.createProduct])
      else
        let newId := toString shop.nextId
        let newGid := "gid://shopify/Product/" ++ newId
        let resource : ShopifyResource :=
          { id := newId
            gid := newGid
            title := data.title
            bodyHtml := data.descriptionHtml
            vendor := data.vendor
            productType := "Dropship"
            images := data.images
            variants := [⟨shop.nextId, data.price⟩]
            media := [] }
        mediaPhase env data
          { shop with
            resources := shop.resources ++ [resource]
            nextId := shop.nextId + 1 }
          newId newGid [ApiCall.createProduct]

/-! ### Brain worker state and stage handlers (`src/services/brain/index.ts`) -/

/-- Combined state the brain worker acts on: the durable store (products and
audit log), the shared Redis (locks and retry counters, stage topics, the
dead-letter topic) and the external catalog. -/
structure BrainState where
  products : List Product
  agentLogs : List AgentLog
  kv : RedisKV
  queues : Queues
  dlq : List DeadLetterRecord
  shopify : ShopifyState
  deriving Repr, DecidableEq

/-- The audit-log payload a handler writes (`AgentLogData`). -/
structure AgentLogData where
  agentName : String
  decision : String
  reason : String
  deriving Repr, DecidableEq

/-- `updateProductState`: partial product update plus one appended audit-log
entry. -/
def updateProductState (s : BrainState) (productId : String)
    (d : ProductUpdateData) (log : AgentLogData) : BrainState :=
  { s with
    products := setProduct s.products productId d
    agentLogs :=
      s.agentLogs ++ [⟨log.agentName, log.decision, log.reason, productId⟩] }

/-- Observable actions of one dispatched job, in order. -/
inductive Event where
  | handler (queueName : String)
  | api (c : ApiCall)
  | scriptProcessor
  | renderAttempt
  | syncInvoked
  | slept (ms : Nat)
  deriving Repr, DecidableEq

/-- Verdict object the discovery agent returns. -/
structure DiscoveryVerdict where
  verdict : String
  viral_score : Int
  sentiment_score : Int
  reasoning : String
  deriving Repr, DecidableEq

/-- Result object the sourcing agent returns. -/
structure SourcingResult where
  verdict : String
  supplierUrl : Option String
  costPrice : Option Rat
  reasoning : String
  deriving Repr, DecidableEq

/-- Selling price: cost price (0 when absent) times the 2.5 multiplier.
Decimal string formatting of the price is abstracted to the rational value. -/
def sellingPrice (costPrice : Option Rat) : Rat :=
  (costPrice.getD 0) * (5 / 2)

/-- The `SyncProductInput` `handleSync` assembles from the stored product. -/
def syncInputOf (p : Product) (copy : CopywritingResult)
    (videoPath : Option String) : SyncProductInput :=
  { title := copy.title
    descriptionHtml := convertMarkdownToHtml copy.description_md
    price := sellingPrice p.costPrice
    vendor := "AutoDropship"
    images := if p.images ≠ [] then p.images else [p.externalUrl]
    videoPath := videoPath
    existingProductId := p.shopifyProductId
    existingProductGid := p.shopifyProductGid
    existingVideoMediaId := p.shopifyVideoMediaId }

/-- `handleSync`: fetch the item; missing item or missing marketing copy is a
no-op. Otherwise call `syncProduct` inside a try/catch: on success persist
`LISTED` plus the returned external identifiers; on failure only log — the
stored product row is left untouched. Never throws. -/
def handleSync (env : SyncEnv) (now : Nat) (productId : String)
    (videoPath : Option String) (s : BrainState) : BrainState × List ApiCall :=
  match findProduct s.products productId with
  | none => (s, [])
  | some p =>
    match p.marketingCopy with
    | none => (s, [])
    | some copy =>
      let out := syncProduct env (syncInputOf p copy videoPath) s.shopify
      match out.1 with
      | Except.ok r =>
        ({ s with
            products := setProduct s.products productId
              { status := some ProductStatus.LISTED
                shopifyProductId := some (some r.productId)
                shopifyProductGid := some (some r.productGid)
                shopifyAdminUrl := some (some r.adminUrl)
                shopifyVideoMediaId := some r.videoMediaId
                listedAt := some (some now) }
            shopify := out.2.1 }, out.2.2)
      | Except.error _ => ({ s with shopify := out.2.1 }, out.2.2)

/-- `handleDiscovery`: fetch the item (absent item is a no-op); the discovery
agent's thrown error propagates; a verdict of `APPROVE` sets `VETTED` and
pushes the item onto the sourcing topic, anything else sets `REJECTED` and
pushes nothing. -/
def handleDiscovery (verdictResult : Except String DiscoveryVerdict)
    (productId : String) (s : BrainState) :
    Except String (BrainState × List Event) :=
  match findProduct s.products productId with
  | none => Except.ok (s, [])
  | some p =>
    match verdictResult with
    | Except.error e => Except.error e
    | Except.ok verdict =>
      let status :=
        if verdict.verdict = "APPROVE" then ProductStatus.VETTED
        else ProductStatus.REJECTED
      let s2 := updateProductState s productId
        { status := some status
          viralScore := some verdict.viral_score
          sentiment := some verdict.sentiment_score }
        ⟨"Discovery", verdict.verdict, verdict.reasoning⟩
      if status = ProductStatus.VETTED then
        Except.ok
          ({ s2 with queues := redisLpush s2.queues QUEUE_SOURCING p.id }, [])
      else
        Except.ok (s2, [])

/-- `handleSourcing`: fetch the item (absent item is a no-op); the sourcing
agent's thrown error propagates; `APPROVED` sets `APPROVED` and pushes the
item onto the copywrite topic, anything else sets `REJECTED`. The cost price
is written only when the agent returned one. -/
def handleSourcing (sourcingResult : Except String SourcingResult)
    (productId : String) (s : BrainState) :
    Except String (BrainState × List Event) :=
  match findProduct s.products productId with
  | none => Except.ok (s, [])
  | some p =>
    match sourcingResult with
    | Except.error e => Except.error e
    | Except.ok result =>
      let status :=
        if result.verdict = "APPROVED" then ProductStatus.APPROVED
        else ProductStatus.REJECTED
      let s2 := updateProductState s productId
        { status := some status
          supplierUrl := some result.supplierUrl
          costPrice := result.costPrice }
        ⟨"Sourcing", result.verdict, result.reasoning⟩
      if status = ProductStatus.APPROVED then
        Except.ok
          ({ s2 with queues := redisLpush s2.queues QUEUE_COPYWRITE p.id }, [])
      else
        Except.ok (s2, [])

/-- `handleCopywrite`: fetch the item (absent item is a no-op); the
copywriter's thrown error propagates; on success store the copy, set
`READY_FOR_VIDEO` and push the item onto the video topic. -/
def handleCopywrite (copyResult : Except String CopywritingResult)
    (productId : String) (s : BrainState) :
    Except String (BrainState × List Event) :=
  match findProduct s.products productId with
  | none => Except.ok (s, [])
  | some p =>
    match copyResult with
    | Except.error e => Except.error e
    | Except.ok copy =>
      let s2 := updateProductState s productId
        { status := some ProductStatus.READY_FOR_VIDEO
          marketingCopy := some copy }
        ⟨"Copywriter", "COMPLETED", "Generated marketing copy"⟩
      Except.ok
        ({ s2 with queues := redisLpush s2.queues QUEUE_VIDEO p.id }, [])

/-- External outcomes one video-stage job can observe: the script agent's
result (or thrown error), the renderer's result (or thrown error, caught and
swallowed), and the outcomes of the Shopify calls. -/
structure VideoEnv where
  script : Except String VideoScriptResult
  render : Except String String
  sync : SyncEnv
  deriving Repr

/-- `handleVideo`: a missing item or missing marketing copy is a silent
no-op (warn log only). Otherwise generate the script (thrown error
propagates), render best-effort (failure caught, video path stays null),
persist `READY_TO_LIST` with the script plus one audit-log entry, then invoke
`handleSync` directly (not queued). -/
def handleVideo (env : VideoEnv) (now : Nat) (productId : String)
    (s : BrainState) : Except String (BrainState × List Event) :=
  match findProduct s.products productId with
  | none => Except.ok (s, [])
  | some p =>
    match p.marketingCopy with
    | none => Except.ok (s, [])
    | some _ =>
      match env.script with
      | Except.error e => Except.error e
      | Except.ok script =>
        let videoPath : Option String :=
          match env.render with
          | Except.ok path => some path
          | Except.error _ => none
        let s2 := updateProductState s productId
          { status := some ProductStatus.READY_TO_LIST
            videoScript := some script }
          ⟨"VideoScript", "COMPLETED",
            "Generated video script" ++
              (if videoPath.isSome then " and rendered video" else "")⟩
        let out := handleSync env.sync now productId videoPath s2
        Except.ok (out.1,
          Event.scriptProcessor :: Event.renderAttempt :: Event.syncInvoked ::
            out.2.map Event.api)

/-! ### Retry and dead-letter policy -/

/-- Retry-counter key for a (stage topic, item) pair. -/
def retryKey (queueName productId : String) : String :=
  "retry:" ++ queueName ++ ":" ++ productId

/-- `recordStageError`: append one audit-log entry recording the failure. -/
def recordStageError (queueName productId msg : String) (s : BrainState) :
    BrainState :=
  { s with
    agentLogs := s.agentLogs ++
      [⟨"Worker", "ERROR", queueName ++ " failed: " ++ msg, productId⟩] }

/-- `handleStageFailure`: log the error, `INCR` the retry counter and refresh
its TTL; while the new count is within `MAX_STAGE_RETRIES`, sleep
`attempt * 5000` ms (reported as a `slept` event) and push the item back onto
the same topic; beyond that, push one dead-letter record and stop. -/
def handleStageFailure (queueName productId msg : String) (now : Nat)
    (s : BrainState) : BrainState × List Event :=
  let s1 := recordStageError queueName productId msg s
  let k := retryKey queueName productId
  let incr := redisIncr s1.kv k
  let s2 := { s1 with kv := redisExpire incr.2 k RETRY_TTL_SECONDS }
  if incr.1 ≤ MAX_STAGE_RETRIES then
    ({ s2 with queues := redisLpush s2.queues queueName productId },
      [Event.slept (incr.1 * 5000)])
  else
    ({ s2 with dlq := ⟨productId, queueName, msg, now⟩ :: s2.dlq }, [])

/-- Current value of the retry counter for a (stage topic, item) pair. -/
def retryCount (kv : RedisKV) (queueName productId : String) : Nat :=
  match kvLookup kv (retryKey queueName productId) with
  | some ⟨RVal.int n, _⟩ => n
  | _ => 0

/-- Remaining TTL of the retry counter for a (stage topic, item) pair. -/
def retryTtl (kv : RedisKV) (queueName productId : String) : Option Nat :=
  (kvLookup kv (retryKey queueName productId)).bind (fun e => e.ttl)

/-- How many dead-letter records exist for a given (item, stage) pair. -/
def dlqCountFor (s : BrainState) (productId queueName : String) : Nat :=
  (s.dlq.filter
    (fun r => r.productId == productId && r.stage == queueName)).length

/-! ### The dispatcher (`processJob`) -/

/-- External outcomes one dispatched job can observe, plus the wall clock. -/
structure JobEnv where
  discovery : Except String DiscoveryVerdict
  sourcing : Except String SourcingResult
  copywriter : Except String CopywritingResult
  video : VideoEnv
  now : Nat
  deriving Repr

/-- `processJob`: acquire the per-(stage, item) lock — on conflict log and
return at once (no handler, no state change, no failure handling); otherwise
route to the stage handler, hand a thrown error to `handleStageFailure`, and
release the lock unconditionally at the end. The fresh random lock token is
passed in. -/
def processJob (env : JobEnv) (token queueName productId : String)
    (s : BrainState) : BrainState × List Event :=
  let acq := acquireJobLock s.kv queueName productId token
  match acq.1 with
  | none => (s, [])
  | some lock =>
    let s1 := { s with kv := acq.2 }
    let handlerOut : Except String (BrainState × List Event) :=
      if queueName = QUEUE_DISCOVERY then
        handleDiscovery env.discovery productId s1
      else if queueName = QUEUE_SOURCING then
        handleSourcing env.sourcing productId s1
      else if queueName = QUEUE_COPYWRITE then
        handleCopywrite env.copywriter productId s1
      else if queueName = QUEUE_VIDEO then
        handleVideo env.video env.now productId s1
      else Except.ok (s1, [])
    match handlerOut with
    | Except.ok out =>
      ({ out.1 with kv := releaseJobLock out.1.kv lock },
        Event.handler queueName :: out.2)
    | Except.error e =>
      let fail := handleStageFailure queueName productId e env.now s1
      ({ fail.1 with kv := releaseJobLock fail.1.kv lock },
        Event.handler queueName :: fail.2)

/-- Any number of consecutive publish attempts for one item: each attempt is
one `handleSync` call under its own environment, wall clock and video path;
the issued API calls are concatenated in order. -/
def runPublishAttempts (attempts : List (SyncEnv × Nat × Option String))
    (productId : String) (s : BrainState) : BrainState × List ApiCall :=
  match attempts with
  | [] => (s, [])
  | a :: rest =>
    let out := handleSync a.1 a.2.1 productId a.2.2 s
    let outRest := runPublishAttempts rest productId out.1
    (outRest.1, out.2 ++ outRest.2)

/-- A minimal product row used as concrete test data. -/
def baseProduct (id : String) : Product :=
  { id := id
    externalUrl := "http://x"
    title := some "T"
    description := none
    status := ProductStatus.DETECTED
    viralScore := none
    sentiment := none
    supplierUrl := none
    costPrice := none
    marketingCopy := none
    videoScript := none
    images := []
    shopifyProductId := none
    shopifyProductGid := none
    shopifyAdminUrl := none
    shopifyVideoMediaId := none
    listedAt := none }

/-- A brain state holding exactly the given product rows and nothing else. -/
def stateWith (ps : List Product) : BrainState :=
  ⟨ps, [], [], [], [], ⟨[], 1, 0⟩⟩

/-- A product that reached `READY_TO_LIST` with stored marketing copy. -/
def readyProduct (id : String) : Product :=
  { baseProduct id with
    status := ProductStatus.READY_TO_LIST
    marketingCopy := some ⟨"Cool gadget", "Great item", ["hook"]⟩
    costPrice := some 10
    images := ["img1"] }

/-- A product already published once: external ids are stored. -/
def listedProduct (id ext : String) : Product :=
  { readyProduct id with
    shopifyProductId := some ext
    shopifyProductGid := some ("gid://shopify/Product/" ++ ext) }

/-- Everything of a catalog resource except its attached media: the media
phase may only touch `media`, so this projection is invariant under it. -/
def coreProj (r : ShopifyResource) :
    String × String × String × String × String × List String ×
      List ShopifyVariant :=
  (r.id, r.title, r.bodyHtml, r.vendor, r.productType, r.images, r.variants)

/-- A one-resource catalog used as concrete test data: resource "7" with
vendor "Other", one image and one variant. -/
def demoShop : ShopifyState :=
  ⟨[⟨"7", "gid://shopify/Product/7", "Old", "old", "Other", "Misc",
      ["img1"], [⟨1, 10⟩], []⟩], 8, 0⟩

/-- An update-path publish input addressing resource "7". -/
def demoUpdateInput : SyncProductInput :=
  { title := "New", descriptionHtml := "new", price := 5,
    vendor := "AutoDropship", images := ["img2"], videoPath := none,
    existingProductId := some "7",
    existingProductGid := some "gid://shopify/Product/7",
    existingVideoMediaId := none }

/-- The environment in which every external request succeeds. -/
def allOkEnv : SyncEnv := ⟨true, true, true, true, true, true, false⟩

/-! ### Helper lemmas about the store primitives -/

theorem kvLookup_kvSet_self (kv : RedisKV) (k : String) (e : RedisEntry) :
    kvLookup (kvSet kv k e) k = some e := by
  simp [kvSet, kvLookup]

theorem kvLookup_kvDel_self (kv : RedisKV) (k : String) :
    kvLookup (kvDel kv k) k = none := by
  induction kv with
  | nil => simp [kvDel, kvLookup]
  | cons hd tl ih =>
    obtain ⟨k2, e⟩ := hd
    by_cases hk : k2 = k
    · simpa [kvDel, hk] using ih
    · simp [kvDel, kvLookup, hk, ih]

theorem kvDel_of_lookup_none (kv : RedisKV) (k : String)
    (h : kvLookup kv k = none) : kvDel kv k = kv := by
  induction kv with
  | nil => simp [kvDel]
  | cons hd tl ih =>
    obtain ⟨k2, e⟩ := hd
    by_cases hk : k2 = k
    · simp [kvLookup, hk] at h
    · simp [kvLookup, hk] at h
      simp [kvDel, hk, ih h]

theorem qGet_lpush_self (qs : Queues) (t v : String) :
    qGet (redisLpush qs t v) t = v :: qGet qs t := by
  simp [redisLpush, qSet, qGet]

theorem qGet_lpush_ne (qs : Queues) (t t2 v : String) (h : t2 ≠ t) :
    qGet (redisLpush qs t v) t2 = qGet qs t2 := by
  simp [redisLpush, qSet, qGet, Ne.symm h]

theorem applyUpdate_id (p : Product) (d : ProductUpdateData) :
    (applyUpdate p d).id = p.id := rfl

theorem findProduct_id (ps : List Product) (id : String) (p : Product)
    (h : findProduct ps id = some p) : p.id = id := by
  induction ps with
  | nil => simp [findProduct] at h
  | cons q rest ih =>
    by_cases hq : q.id = id
    · simp [findProduct, hq] at h
      simpa [h] using hq
    · simp [findProduct, hq] at h
      exact ih h

theorem findProduct_setProduct_self (ps : List Product) (id : String)
    (d : ProductUpdateData) (p : Product)
    (h : findProduct ps id = some p) :
    findProduct (setProduct ps id d) id = some (applyUpdate p d) := by
  induction ps with
  | nil => simp [findProduct] at h
  | cons q rest ih =>
    by_cases hq : q.id = id
    · simp [findProduct, hq] at h
      subst h
      simp [setProduct, findProduct, hq, applyUpdate_id]
    · simp [findProduct, hq] at h
      simp [setProduct, findProduct, hq, ih h]

/-! ### Claims -/

/-- C3: `releaseJobLock` runs the `RELEASE_LOCK_LUA` compare-then-delete as a
single Redis `EVAL` (one atomic transition of the store in this model): it
deletes the lock key only when the stored value still equals this lock's own
token. A release with a stale token while the key holds another owner's token
leaves the whole store — in particular that other owner's lock — unchanged;
when the token does still match, the key is deleted. -/
theorem release_lock_only_own_token (kv : RedisKV) (lock : JobLock) :
    (redisGet kv lock.key ≠ some (RVal.str lock.token) →
      releaseJobLock kv lock = kv) ∧
    (redisGet kv lock.key = some (RVal.str lock.token) →
      redisGet (releaseJobLock kv lock) lock.key = none) := by
  constructor
  · intro h
    simp [releaseJobLock, releaseLockScript, h]
  · intro h
    unfold releaseJobLock releaseLockScript
    rw [if_pos h]
    simp [redisGet, kvLookup_kvDel_self]

/-- Witness for C3: a key re-acquired by a second owner (token `token-B`)
survives a release by the first owner's stale lock (token `token-A`)
untouched, and a matching release does delete the key. -/
theorem release_lock_only_own_token_witness :
    releaseJobLock
        [(lockKey QUEUE_SOURCING "P1",
          ⟨RVal.str "token-B", some JOB_LOCK_TTL_SECONDS⟩)]
        ⟨lockKey QUEUE_SOURCING "P1", "token-A"⟩ =
      [(lockKey QUEUE_SOURCING "P1",
        ⟨RVal.str "token-B", some JOB_LOCK_TTL_SECONDS⟩)] ∧
    redisGet
        (releaseJobLock
          [(lockKey QUEUE_SOURCING "P1",
            ⟨RVal.str "token-B", some JOB_LOCK_TTL_SECONDS⟩)]
          ⟨lockKey QUEUE_SOURCING "P1", "token-B"⟩)
        (lockKey QUEUE_SOURCING "P1") = none := by
  constructor
  · exact (release_lock_only_own_token _ _).1 (by decide)
  · exact (release_lock_only_own_token _ _).2 (by decide)

/-- C5: lock acquisition is one atomic `SET key token EX ttl NX`: when the key
is absent it is set to the caller's fresh token with the 10-minute TTL and the
lock is returned; when the key already exists, acquisition returns null at
once with the store untouched (no wait, no retry), and the dispatcher then
skips the popped job entirely — state unchanged, no handler event, no failure
handling. -/
theorem lock_conflict_skips_job (env : JobEnv)
    (token queueName productId : String) (s : BrainState) :
    (kvLookup s.kv (lockKey queueName productId) = none →
      acquireJobLock s.kv queueName productId token =
        (some ⟨lockKey queueName productId, token⟩,
          kvSet s.kv (lockKey queueName productId)
            ⟨RVal.str token, some JOB_LOCK_TTL_SECONDS⟩)) ∧
    ((kvLookup s.kv (lockKey queueName productId)).isSome →
      acquireJobLock s.kv queueName productId token = (none, s.kv) ∧
      processJob env token queueName productId s = (s, [])) := by
  constructor
  · intro h
    simp [acquireJobLock, redisSetNxEx, h]
  · intro h
    obtain ⟨e, he⟩ := Option.isSome_iff_exists.mp h
    constructor
    · simp [acquireJobLock, redisSetNxEx, he]
    · simp [processJob, acquireJobLock, redisSetNxEx, he]

/-- Witness for C5: with the lock key already held, a sourcing job for the
same item is dropped without any state change, and on a free key the lock is
stored with token and TTL. -/
theorem lock_conflict_skips_job_witness :
    processJob
        ⟨Except.error "e", Except.error "e", Except.error "e",
          ⟨Except.error "e", Except.error "e",
            ⟨true, true, true, true, true, true, false⟩⟩, 0⟩
        "token-A" QUEUE_SOURCING "P1"
        ⟨[], [],
          [(lockKey QUEUE_SOURCING "P1",
            ⟨RVal.str "token-B", some JOB_LOCK_TTL_SECONDS⟩)],
          [], [], ⟨[], 1, 0⟩⟩ =
      (⟨[], [],
        [(lockKey QUEUE_SOURCING "P1",
          ⟨RVal.str "token-B", some JOB_LOCK_TTL_SECONDS⟩)],
        [], [], ⟨[], 1, 0⟩⟩, []) := by
  exact ((lock_conflict_skips_job _ _ _ _ _).2 (by decide)).2

/-- C4: the code pairs `LPUSH` (insert at the head) with `BLPOP` (remove from
the head), so the worker's queues behave as stacks, not FIFO queues: after
pushing "A" and then "B" onto the sourcing topic, the worker's blocking pop
delivers "B" — the later-pushed item — first, and "A" second. Under the
claimed tail-push/head-pop (FIFO) discipline the first delivery would be
"A". -/
theorem worker_queue_delivers_lifo :
    ((blpopMulti
        (redisLpush (redisLpush ([] : Queues) QUEUE_SOURCING "A")
          QUEUE_SOURCING "B")
        workerTopics).map (fun r => (r.1, r.2.1)) =
      some (QUEUE_SOURCING, "B")) ∧
    ((blpopMulti (qSet (redisLpush (redisLpush ([] : Queues) QUEUE_SOURCING "A")
          QUEUE_SOURCING "B") QUEUE_SOURCING ["A"])
        workerTopics).map (fun r => (r.1, r.2.1)) =
      some (QUEUE_SOURCING, "A")) := by
  constructor
  · rfl
  · rfl

/-- C2: on a handler failure for item `pid` at stage `q` with the retry
counter at `c`, the policy appends one audit-log entry recording the error,
increments the counter to `c + 1` and refreshes its TTL; while the new count
is at most `MAX_STAGE_RETRIES` (3) the worker sleeps `(c + 1) * 5000` ms and
pushes the item back onto the same topic (dead-letter list untouched); once
the count exceeds 3 — the 4th consecutive failure — exactly one dead-letter
record `{itemId, stage, error, occurredAt}` is pushed and the item is not
re-enqueued (every queue unchanged, so no automatic re-delivery can occur). -/
theorem stage_failure_retry_policy
    (s : BrainState) (q pid msg : String) (now c : Nat)
    (hc : retryCount s.kv q pid = c) :
    ((handleStageFailure q pid msg now s).1.agentLogs =
      s.agentLogs ++ [⟨"Worker", "ERROR", q ++ " failed: " ++ msg, pid⟩]) ∧
    (retryCount (handleStageFailure q pid msg now s).1.kv q pid = c + 1) ∧
    (retryTtl (handleStageFailure q pid msg now s).1.kv q pid =
      some RETRY_TTL_SECONDS) ∧
    (c + 1 ≤ MAX_STAGE_RETRIES →
      (handleStageFailure q pid msg now s).2 =
        [Event.slept ((c + 1) * 5000)] ∧
      qGet (handleStageFailure q pid msg now s).1.queues q =
        pid :: qGet s.queues q ∧
      (handleStageFailure q pid msg now s).1.dlq = s.dlq) ∧
    (MAX_STAGE_RETRIES < c + 1 →
      (handleStageFailure q pid msg now s).1.dlq =
        ⟨pid, q, msg, now⟩ :: s.dlq ∧
      (handleStageFailure q pid msg now s).1.queues = s.queues ∧
      (handleStageFailure q pid msg now s).2 = []) := by
  have hincr : redisIncr s.kv (retryKey q pid) =
      (c + 1, kvSet s.kv (retryKey q pid)
        ⟨RVal.int (c + 1),
          (kvLookup s.kv (retryKey q pid)).bind (fun e => e.ttl)⟩) := by
    rcases hval : kvLookup s.kv (retryKey q pid) with _ | e
    · simp [retryCount, hval] at hc
      subst hc
      simp [redisIncr, hval]
    · rcases e with ⟨v, ttl⟩
      rcases v with sv | n
      · simp [retryCount, hval] at hc
        subst hc
        simp [redisIncr, hval]
      · simp [retryCount, hval] at hc
        subst hc
        simp [redisIncr, hval]
  by_cases hle : c + 1 ≤ MAX_STAGE_RETRIES
  · have hout : handleStageFailure q pid msg now s =
        ({ s with
            agentLogs := s.agentLogs ++
              [⟨"Worker", "ERROR", q ++ " failed: " ++ msg, pid⟩]
            kv := kvSet (kvSet s.kv (retryKey q pid)
                ⟨RVal.int (c + 1),
                  (kvLookup s.kv (retryKey q pid)).bind (fun e => e.ttl)⟩)
              (retryKey q pid)
              ⟨RVal.int (c + 1), some RETRY_TTL_SECONDS⟩
            queues := redisLpush s.queues q pid },
          [Event.slept ((c + 1) * 5000)]) := by
      simp [handleStageFailure, recordStageError, hincr, redisExpire,
        kvLookup_kvSet_self, hle]
    rw [hout]
    refine ⟨rfl, ?_, ?_, fun _ => ⟨rfl, ?_, rfl⟩, fun hgt => absurd hle (by omega)⟩
    · simp [retryCount, kvLookup_kvSet_self]
    · simp [retryTtl, kvLookup_kvSet_self]
    · simp [qGet_lpush_self]
  · have hout : handleStageFailure q pid msg now s =
        ({ s with
            agentLogs := s.agentLogs ++
              [⟨"Worker", "ERROR", q ++ " failed: " ++ msg, pid⟩]
            kv := kvSet (kvSet s.kv (retryKey q pid)
                ⟨RVal.int (c + 1),
                  (kvLookup s.kv (retryKey q pid)).bind (fun e => e.ttl)⟩)
              (retryKey q pid)
              ⟨RVal.int (c + 1), some RETRY_TTL_SECONDS⟩
            dlq := ⟨pid, q, msg, now⟩ :: s.dlq },
          []) := by
      simp [handleStageFailure, recordStageError, hincr, redisExpire,
        kvLookup_kvSet_self, hle]
    rw [hout]
    refine ⟨rfl, ?_, ?_, fun hle2 => absurd hle2 hle, fun _ => ⟨rfl, rfl, rfl⟩⟩
    · simp [retryCount, kvLookup_kvSet_self]
    · simp [retryTtl, kvLookup_kvSet_self]

/-- Witness for C2: with the counter at 3 (three failures already recorded),
a sourcing failure for item "P2" pushes exactly one dead-letter record and
does not re-enqueue the item: the 4th consecutive failure dead-letters. -/
theorem stage_failure_retry_policy_witness :
    (handleStageFailure QUEUE_SOURCING "P2" "boom" 99
        ⟨[], [],
          [(retryKey QUEUE_SOURCING "P2",
            ⟨RVal.int 3, some RETRY_TTL_SECONDS⟩)],
          [], [], ⟨[], 1, 0⟩⟩).1.dlq =
      [⟨"P2", QUEUE_SOURCING, "boom", 99⟩] ∧
    (handleStageFailure QUEUE_SOURCING "P2" "boom" 99
        ⟨[], [],
          [(retryKey QUEUE_SOURCING "P2",
            ⟨RVal.int 3, some RETRY_TTL_SECONDS⟩)],
          [], [], ⟨[], 1, 0⟩⟩).1.queues = [] := by
  have h := stage_failure_retry_policy
    ⟨[], [],
      [(retryKey QUEUE_SOURCING "P2", ⟨RVal.int 3, some RETRY_TTL_SECONDS⟩)],
      [], [], ⟨[], 1, 0⟩⟩
    QUEUE_SOURCING "P2" "boom" 99 3 (by decide)
  have h2 := h.2.2.2.2 (by decide)
  exact ⟨by rw [h2.1], by rw [h2.2.1]⟩

/-- C6: for an item present in the store, the discovery handler with verdict
`APPROVE` sets the status to `VETTED` and pushes the item's id onto the
sourcing topic (every other topic untouched); with any other verdict — in
particular `REJECT` — it sets the terminal status `REJECTED` and enqueues
nothing: no topic, in particular not the sourcing topic, changes. -/
theorem discovery_routes_verdicts
    (s : BrainState) (productId : String) (p : Product) (v : DiscoveryVerdict)
    (hp : findProduct s.products productId = some p) :
    (v.verdict = "APPROVE" →
      ∃ s2, handleDiscovery (Except.ok v) productId s = Except.ok (s2, []) ∧
        (findProduct s2.products productId).map Product.status =
          some ProductStatus.VETTED ∧
        qGet s2.queues QUEUE_SOURCING = p.id :: qGet s.queues QUEUE_SOURCING ∧
        (∀ t, t ≠ QUEUE_SOURCING → qGet s2.queues t = qGet s.queues t)) ∧
    (v.verdict ≠ "APPROVE" →
      ∃ s2, handleDiscovery (Except.ok v) productId s = Except.ok (s2, []) ∧
        (findProduct s2.products productId).map Product.status =
          some ProductStatus.REJECTED ∧
        s2.queues = s.queues) := by
  constructor
  · intro hv
    refine ⟨{ updateProductState s productId
        { status := some ProductStatus.VETTED
          viralScore := some v.viral_score
          sentiment := some v.sentiment_score }
        ⟨"Discovery", v.verdict, v.reasoning⟩ with
        queues := redisLpush s.queues QUEUE_SOURCING p.id }, ?_, ?_, ?_, ?_⟩
    · simp [handleDiscovery, hp, hv, updateProductState]
    · have hfind := findProduct_setProduct_self s.products productId
        { status := some ProductStatus.VETTED
          viralScore := some v.viral_score
          sentiment := some v.sentiment_score } p hp
      simp [updateProductState, hfind, applyUpdate]
    · exact qGet_lpush_self _ _ _
    · intro t ht
      exact qGet_lpush_ne _ _ _ _ ht
  · intro hv
    refine ⟨updateProductState s productId
        { status := some ProductStatus.REJECTED
          viralScore := some v.viral_score
          sentiment := some v.sentiment_score }
        ⟨"Discovery", v.verdict, v.reasoning⟩, ?_, ?_, ?_⟩
    · simp [handleDiscovery, hp, hv, updateProductState]
    · have hfind := findProduct_setProduct_self s.products productId
        { status := some ProductStatus.REJECTED
          viralScore := some v.viral_score
          sentiment := some v.sentiment_score } p hp
      simp [updateProductState, hfind, applyUpdate]
    · rfl

/-- Witness for C6: Scenario A — item "P1" in state `DETECTED` approved by
discovery ends `VETTED` with "P1" on the sourcing topic; the same item
rejected ends `REJECTED` with the sourcing topic still empty. -/
theorem discovery_routes_verdicts_witness :
    (∃ s2,
      handleDiscovery
          (Except.ok ⟨"APPROVE", 80, 70, "viral"⟩) "P1"
          (stateWith [baseProduct "P1"]) = Except.ok (s2, []) ∧
      (findProduct s2.products "P1").map Product.status =
        some ProductStatus.VETTED ∧
      qGet s2.queues QUEUE_SOURCING = ["P1"]) ∧
    (∃ s2,
      handleDiscovery
          (Except.ok ⟨"REJECT", 10, 20, "weak"⟩) "P1"
          (stateWith [baseProduct "P1"]) = Except.ok (s2, []) ∧
      (findProduct s2.products "P1").map Product.status =
        some ProductStatus.REJECTED ∧
      s2.queues = []) := by
  constructor
  · obtain ⟨s2, h1, h2, h3, -⟩ :=
      (discovery_routes_verdicts (stateWith [baseProduct "P1"]) "P1"
        (baseProduct "P1") ⟨"APPROVE", 80, 70, "viral"⟩ (by decide)).1 rfl
    exact ⟨s2, h1, h2, by rw [h3]; rfl⟩
  · obtain ⟨s2, h1, h2, h3⟩ :=
      (discovery_routes_verdicts (stateWith [baseProduct "P1"]) "P1"
        (baseProduct "P1") ⟨"REJECT", 10, 20, "weak"⟩ (by decide)).2
        (by decide)
    exact ⟨s2, h1, h2, by rw [h3]; rfl⟩

/-- C10: a video-stage job for an item that exists but has no stored
marketing copy returns without doing anything: the handler yields `ok` with
the state untouched and an empty event trace (no script processor, no render,
no publish, no API call), and a full dispatch of such a job leaves the whole
state exactly as it was — no product change, no audit-log entry, no enqueue,
no retry-counter increment and no dead-letter record. -/
theorem video_missing_copy_silent_noop
    (env : VideoEnv) (now : Nat) (productId : String) (s : BrainState)
    (p : Product)
    (hp : findProduct s.products productId = some p)
    (hc : p.marketingCopy = none) :
    handleVideo env now productId s = Except.ok (s, []) ∧
    (∀ (jenv : JobEnv) (token : String),
      kvLookup s.kv (lockKey QUEUE_VIDEO productId) = none →
      processJob jenv token QUEUE_VIDEO productId s =
        (s, [Event.handler QUEUE_VIDEO])) := by
  constructor
  · simp [handleVideo, hp, hc]
  · intro jenv token hlock
    obtain ⟨ps, logs, kv, qs, dlq, shop⟩ := s
    have hlock2 : kvLookup kv (lockKey "queue:video" productId) = none := hlock
    have hpx : findProduct ps productId = some p := hp
    have hrel : releaseJobLock
        (kvSet kv (lockKey "queue:video" productId)
          ⟨RVal.str token, some JOB_LOCK_TTL_SECONDS⟩)
        ⟨lockKey "queue:video" productId, token⟩ = kv := by
      unfold releaseJobLock releaseLockScript
      rw [if_pos (by simp [redisGet, kvLookup_kvSet_self])]
      simp [kvSet, kvDel]
      exact kvDel_of_lookup_none _ _ hlock2
    simp [processJob, acquireJobLock, redisSetNxEx, hlock2, handleVideo, hpx,
      hc, hrel, QUEUE_VIDEO, QUEUE_DISCOVERY, QUEUE_SOURCING, QUEUE_COPYWRITE]

/-- Witness for C10: item "P9" present with no marketing copy — the video
handler is a no-op and a dispatched video job changes nothing. -/
theorem video_missing_copy_silent_noop_witness :
    handleVideo
        ⟨Except.ok ⟨["s1"]⟩, Except.ok "out.mp4",
          ⟨true, true, true, true, true, true, false⟩⟩
        7 "P9" (stateWith [baseProduct "P9"]) =
      Except.ok (stateWith [baseProduct "P9"], []) ∧
    processJob
        ⟨Except.error "e", Except.error "e", Except.error "e",
          ⟨Except.ok ⟨["s1"]⟩, Except.ok "out.mp4",
            ⟨true, true, true, true, true, true, false⟩⟩, 7⟩
        "tok" QUEUE_VIDEO "P9" (stateWith [baseProduct "P9"]) =
      (stateWith [baseProduct "P9"], [Event.handler QUEUE_VIDEO]) := by
  have h := video_missing_copy_silent_noop
    ⟨Except.ok ⟨["s1"]⟩, Except.ok "out.mp4",
      ⟨true, true, true, true, true, true, false⟩⟩
    7 "P9" (stateWith [baseProduct "P9"]) (baseProduct "P9")
    (by decide) (by decide)
  exact ⟨h.1, h.2 _ "tok" (by decide)⟩

/-- C7: when the `syncProduct` call inside `handleSync` throws, the failure is
caught and only logged: the stored product rows are unchanged (the item keeps
status `READY_TO_LIST` and no external-publish identifiers are written), no
audit-log entry is appended, the retry counters (Redis keys) are untouched,
nothing is enqueued on any topic, and no dead-letter record is produced. -/
theorem publish_failure_no_state_change
    (env : SyncEnv) (now : Nat) (pid : String) (vp : Option String)
    (s : BrainState) (p : Product) (copy : CopywritingResult) (e : String)
    (hp : findProduct s.products pid = some p)
    (hcopy : p.marketingCopy = some copy)
    (hstatus : p.status = ProductStatus.READY_TO_LIST)
    (hfail : (syncProduct env (syncInputOf p copy vp) s.shopify).1 =
      Except.error e) :
    (handleSync env now pid vp s).1.products = s.products ∧
    ((findProduct (handleSync env now pid vp s).1.products pid).map
        Product.status = some ProductStatus.READY_TO_LIST) ∧
    (handleSync env now pid vp s).1.agentLogs = s.agentLogs ∧
    (handleSync env now pid vp s).1.kv = s.kv ∧
    (handleSync env now pid vp s).1.queues = s.queues ∧
    (handleSync env now pid vp s).1.dlq = s.dlq := by
  have hout : handleSync env now pid vp s =
      ({ s with
          shopify := (syncProduct env (syncInputOf p copy vp) s.shopify).2.1 },
        (syncProduct env (syncInputOf p copy vp) s.shopify).2.2) := by
    simp [handleSync, hp, hcopy, hfail]
  rw [hout]
  exact ⟨rfl, by simp [hp, hstatus], rfl, rfl, rfl, rfl⟩

/-- Witness for C7: a publish attempt for item "P7" that throws (no access
token configured) leaves every store component exactly as it was. -/
theorem publish_failure_no_state_change_witness :
    (handleSync ⟨false, true, true, true, true, true, false⟩ 5 "P7" none
        (stateWith [readyProduct "P7"])).1.products =
      (stateWith [readyProduct "P7"]).products ∧
    (handleSync ⟨false, true, true, true, true, true, false⟩ 5 "P7" none
        (stateWith [readyProduct "P7"])).1.queues =
      (stateWith [readyProduct "P7"]).queues := by
  have h := publish_failure_no_state_change
    ⟨false, true, true, true, true, true, false⟩ 5 "P7" none
    (stateWith [readyProduct "P7"]) (readyProduct "P7")
    ⟨"Cool gadget", "Great item", ["hook"]⟩
    "No Shopify access token configured"
    (by decide) (by decide) (by decide) rfl
  exact ⟨h.1, h.2.2.2.2.1⟩

theorem map_idImages_updateResourceBase (rs : List ShopifyResource)
    (id : String) (data : SyncProductInput) :
    (updateResourceBase rs id data).map (fun r => (r.id, r.images)) =
      rs.map (fun r => (r.id, r.images)) := by
  induction rs with
  | nil => rfl
  | cons r rest ih =>
    by_cases h : r.id = id <;> simp [updateResourceBase, h] <;>
      simpa [updateResourceBase] using ih

theorem map_idImages_updateVariantPrice (rs : List ShopifyResource)
    (vid : Nat) (price : Rat) :
    (updateVariantPrice rs vid price).map (fun r => (r.id, r.images)) =
      rs.map (fun r => (r.id, r.images)) := by
  induction rs with
  | nil => rfl
  | cons r rest _ => simp [updateVariantPrice]

theorem map_idImages_attachMedia (rs : List ShopifyResource)
    (gid mediaId : String) :
    (attachMedia rs gid mediaId).map (fun r => (r.id, r.images)) =
      rs.map (fun r => (r.id, r.images)) := by
  induction rs with
  | nil => rfl
  | cons r rest ih =>
    by_cases h : r.gid = gid <;> simp [attachMedia, h] <;>
      simpa [attachMedia] using ih

theorem mediaPhase_idImages (env : SyncEnv) (data : SyncProductInput)
    (shop : ShopifyState) (pid gid : String) (calls : List ApiCall) :
    (mediaPhase env data shop pid gid calls).2.1.resources.map
        (fun r => (r.id, r.images)) =
      shop.resources.map (fun r => (r.id, r.images)) := by
  rcases hv : data.videoPath with _ | path
  · simp [mediaPhase, hv]
  · rcases hm : data.existingVideoMediaId with _ | m
    · by_cases h1 : env.stagedUploadOk
      · by_cases h2 : env.bytesUploadOk
        · by_cases h3 : env.attachCallOk
          · by_cases h4 : env.attachUserErrors
            · simp [mediaPhase, hv, hm, h1, h2, h3, h4]
            · simp [mediaPhase, hv, hm, h1, h2, h3, h4,
                map_idImages_attachMedia]
          · simp [mediaPhase, hv, hm, h1, h2, h3]
        · simp [mediaPhase, hv, hm, h1, h2]
      · simp [mediaPhase, hv, hm, h1]
    · simp [mediaPhase, hv, hm]

theorem findResource_updateResourceBase (rs : List ShopifyResource)
    (x : String) (data : SyncProductInput) :
    findResource (updateResourceBase rs x data) x =
      (findResource rs x).map (fun r =>
        { r with
          title := data.title
          bodyHtml := data.descriptionHtml
          vendor := data.vendor
          productType := "Dropship" }) := by
  induction rs with
  | nil => rfl
  | cons r rest ih =>
    by_cases h : r.id = x
    · simp [updateResourceBase, findResource, h]
    · simp [updateResourceBase, findResource, h] at ih ⊢
      exact ih

theorem findResource_updateVariantPrice (rs : List ShopifyResource)
    (x : String) (vid : Nat) (price : Rat) :
    findResource (updateVariantPrice rs vid price) x =
      (findResource rs x).map (fun r =>
        { r with
          variants := r.variants.map (fun v =>
            if v.id = vid then { v with price := price } else v) }) := by
  induction rs with
  | nil => rfl
  | cons r rest ih =>
    by_cases h : r.id = x
    · simp [updateVariantPrice, findResource, h]
    · simp [updateVariantPrice, findResource, h] at ih ⊢
      exact ih

theorem findResource_attachMedia (rs : List ShopifyResource)
    (x gid mid : String) :
    findResource (attachMedia rs gid mid) x =
      (findResource rs x).map (fun r =>
        if r.gid = gid then { r with media := r.media ++ [mid] } else r) := by
  induction rs with
  | nil => rfl
  | cons r rest ih =>
    by_cases h : r.id = x
    · by_cases hg : r.gid = gid <;> simp [attachMedia, findResource, h, hg]
    · by_cases hg : r.gid = gid <;>
        simp [attachMedia, findResource, h, hg] at ih ⊢ <;> exact ih

theorem mediaPhase_resources_cases (env : SyncEnv) (data : SyncProductInput)
    (shop : ShopifyState) (pid gid : String) (calls : List ApiCall) :
    (mediaPhase env data shop pid gid calls).2.1.resources = shop.resources ∨
    ∃ mid, (mediaPhase env data shop pid gid calls).2.1.resources =
      attachMedia shop.resources gid mid := by
  rcases hv : data.videoPath with _ | path
  · left
    simp [mediaPhase, hv]
  · rcases hm : data.existingVideoMediaId with _ | m
    · by_cases h1 : env.stagedUploadOk
      · by_cases h2 : env.bytesUploadOk
        · by_cases h3 : env.attachCallOk
          · by_cases h4 : env.attachUserErrors
            · left
              simp [mediaPhase, hv, hm, h1, h2, h3, h4]
            · right
              exact ⟨"gid://shopify/Video/" ++ toString shop.nextMediaId,
                by simp [mediaPhase, hv, hm, h1, h2, h3, h4]⟩
          · left
            simp [mediaPhase, hv, hm, h1, h2, h3]
        · left
          simp [mediaPhase, hv, hm, h1, h2]
      · left
        simp [mediaPhase, hv, hm, h1]
    · left
      simp [mediaPhase, hv, hm]

theorem findResource_mediaPhase_core (env : SyncEnv)
    (data : SyncProductInput) (shop : ShopifyState) (pid gid : String)
    (calls : List ApiCall) (x : String) :
    (findResource (mediaPhase env data shop pid gid calls).2.1.resources
        x).map coreProj =
      (findResource shop.resources x).map coreProj := by
  rcases mediaPhase_resources_cases env data shop pid gid calls
      with h | ⟨mid, h⟩
  · rw [h]
  · rw [h, findResource_attachMedia]
    cases hfr : findResource shop.resources x with
    | none => rfl
    | some r =>
      by_cases hg : r.gid = gid <;> simp [hg, coreProj]

/-- Amended-C9 frame half: whenever `syncProduct` takes the update path (an
existing external id is present), the set of catalog resources is neither
grown nor shrunk and every resource keeps exactly its previous images — no
images are sent on update — under every environment outcome. -/
theorem update_path_preserves_images (env : SyncEnv)
    (data : SyncProductInput) (shop : ShopifyState) (x : String)
    (hx : data.existingProductId = some x) :
    (syncProduct env data shop).2.1.resources.map (fun r => (r.id, r.images)) =
      shop.resources.map (fun r => (r.id, r.images)) := by
  unfold syncProduct
  by_cases ht : env.tokenOk
  · by_cases hb : env.baseCallOk
    · by_cases hvs : env.variantStepOk
      · rcases hfind : (findResource (updateResourceBase shop.resources x data)
            x).bind (fun r => (r.variants.head?).map (fun v => v.id)) with _ | vid
        · simp only [ht, hb, hvs, hx, not_true, Bool.not_eq_true, if_neg,
            hfind]
          simp [ht, hb, hvs, hfind, mediaPhase_idImages,
            map_idImages_updateResourceBase]
        · simp only [ht, hb, hvs, hx, hfind]
          simp [ht, hb, hvs, hfind, mediaPhase_idImages,
            map_idImages_updateVariantPrice, map_idImages_updateResourceBase]
      · simp [ht, hb, hvs, hx, mediaPhase_idImages,
          map_idImages_updateResourceBase]
    · simp [ht, hb, hx]
  · simp [ht]

theorem findResource_core_extract (rs : List ShopifyResource) (x : String)
    (w : ShopifyResource)
    (h : (findResource rs x).map coreProj = some (coreProj w)) :
    ∃ r2, findResource rs x = some r2 ∧ r2.title = w.title ∧
      r2.bodyHtml = w.bodyHtml ∧ r2.vendor = w.vendor ∧
      r2.productType = w.productType ∧ r2.images = w.images ∧
      r2.variants = w.variants := by
  cases hfr : findResource rs x with
  | none =>
    rw [hfr] at h
    cases h
  | some r2 =>
    rw [hfr] at h
    simp [coreProj] at h
    obtain ⟨-, h2, h3, h4, h5, h6, h7⟩ := h
    exact ⟨r2, rfl, h2, h3, h4, h5, h6, h7⟩

/-- C9 (amended): for every publish that takes the update path (an existing
external id `x` is present), (i) under every environment outcome no catalog
resource is added or removed and every resource keeps exactly its previous
images — no images are sent on update; and (ii) once the base `PUT` went
through, the resource the stored id refers to carries the new title,
body/description, vendor and the product type "Dropship" while keeping its
previous images, and when the best-effort variant step also succeeded its
first variant's price is the published price. (The counterexample below
shows the update touches vendor and product type besides title, body and
price, so "only title, body and price" is amended to include those two
fields.) -/
theorem update_path_effect (env : SyncEnv) (data : SyncProductInput)
    (shop : ShopifyState) (x : String)
    (hx : data.existingProductId = some x) :
    ((syncProduct env data shop).2.1.resources.map
        (fun r => (r.id, r.images)) =
      shop.resources.map (fun r => (r.id, r.images))) ∧
    (env.tokenOk = true → env.baseCallOk = true →
      ∀ r0, findResource shop.resources x = some r0 →
      ∃ r2, findResource (syncProduct env data shop).2.1.resources x =
          some r2 ∧
        r2.title = data.title ∧
        r2.bodyHtml = data.descriptionHtml ∧
        r2.vendor = data.vendor ∧
        r2.productType = "Dropship" ∧
        r2.images = r0.images ∧
        (env.variantStepOk = true → ∀ v0, r0.variants.head? = some v0 →
          (r2.variants.head?).map (fun v => v.price) = some data.price)) := by
  constructor
  · exact update_path_preserves_images env data shop x hx
  · intro ht hb r0 hr0
    have hrs1 : findResource (updateResourceBase shop.resources x data) x =
        some { r0 with
          title := data.title
          bodyHtml := data.descriptionHtml
          vendor := data.vendor
          productType := "Dropship" } := by
      rw [findResource_updateResourceBase, hr0]
      rfl
    by_cases hvs : env.variantStepOk
    · rcases hfind : (findResource (updateResourceBase shop.resources x data)
          x).bind (fun r => (r.variants.head?).map (fun v => v.id))
          with _ | vid
      · have hnov : r0.variants.head? = none := by
          rw [hrs1] at hfind
          simpa using hfind
        have hsync : (syncProduct env data shop).2.1 =
            (mediaPhase env data
              { shop with
                resources := updateResourceBase shop.resources x data }
              x (data.existingProductGid.getD
                ("gid://shopify/Product/" ++ x))
              [ApiCall.updateProduct x, ApiCall.getProduct x]).2.1 := by
          simp [syncProduct, ht, hb, hvs, hx, hfind]
        have hcore := findResource_mediaPhase_core env data
          { shop with resources := updateResourceBase shop.resources x data }
          x (data.existingProductGid.getD ("gid://shopify/Product/" ++ x))
          [ApiCall.updateProduct x, ApiCall.getProduct x] x
        rw [show ({ shop with
              resources := updateResourceBase shop.resources x data } :
            ShopifyState).resources = updateResourceBase shop.resources x data
          from rfl, hrs1] at hcore
        obtain ⟨r2, hfind2, h2, h3, h4, h5, h6, -⟩ :=
          findResource_core_extract _ x _ hcore
        rw [hsync]
        refine ⟨r2, hfind2, h2, h3, h4, h5, h6, ?_⟩
        intro _ v0 hv0
        rw [hnov] at hv0
        cases hv0
      · have hsync : (syncProduct env data shop).2.1 =
            (mediaPhase env data
              { shop with
                resources := updateVariantPrice
                  (updateResourceBase shop.resources x data) vid data.price }
              x (data.existingProductGid.getD
                ("gid://shopify/Product/" ++ x))
              [ApiCall.updateProduct x, ApiCall.getProduct x,
                ApiCall.updateVariant vid]).2.1 := by
          simp [syncProduct, ht, hb, hvs, hx, hfind]
        have hres2 : findResource (updateVariantPrice
            (updateResourceBase shop.resources x data) vid data.price) x =
            some { r0 with
              title := data.title
              bodyHtml := data.descriptionHtml
              vendor := data.vendor
              productType := "Dropship"
              variants := r0.variants.map (fun v =>
                if v.id = vid then { v with price := data.price } else v) } := by
          rw [findResource_updateVariantPrice, hrs1]
          rfl
        have hcore := findResource_mediaPhase_core env data
          { shop with
            resources := updateVariantPrice
              (updateResourceBase shop.resources x data) vid data.price }
          x (data.existingProductGid.getD ("gid://shopify/Product/" ++ x))
          [ApiCall.updateProduct x, ApiCall.getProduct x,
            ApiCall.updateVariant vid] x
        rw [show ({ shop with
              resources := updateVariantPrice
                (updateResourceBase shop.resources x data) vid data.price } :
            ShopifyState).resources = updateVariantPrice
              (updateResourceBase shop.resources x data) vid data.price
          from rfl, hres2] at hcore
        obtain ⟨r2, hfind2, h2, h3, h4, h5, h6, h7⟩ :=
          findResource_core_extract _ x _ hcore
        rw [hsync]
        refine ⟨r2, hfind2, h2, h3, h4, h5, h6, ?_⟩
        intro _ v0 hv0
        have hvid : v0.id = vid := by
          rw [hrs1] at hfind
          simp [hv0] at hfind
          exact hfind
        rw [h7, List.head?_map, hv0]
        simp [hvid]
    · have hsync : (syncProduct env data shop).2.1 =
          (mediaPhase env data
            { shop with
              resources := updateResourceBase shop.resources x data }
            x (data.existingProductGid.getD ("gid://shopify/Product/" ++ x))
            [ApiCall.updateProduct x, ApiCall.getProduct x]).2.1 := by
        simp [syncProduct, ht, hb, hvs, hx]
      have hcore := findResource_mediaPhase_core env data
        { shop with resources := updateResourceBase shop.resources x data }
        x (data.existingProductGid.getD ("gid://shopify/Product/" ++ x))
        [ApiCall.updateProduct x, ApiCall.getProduct x] x
      rw [show ({ shop with
            resources := updateResourceBase shop.resources x data } :
          ShopifyState).resources = updateResourceBase shop.resources x data
        from rfl, hrs1] at hcore
      obtain ⟨r2, hfind2, h2, h3, h4, h5, h6, -⟩ :=
        findResource_core_extract _ x _ hcore
      rw [hsync]
      refine ⟨r2, hfind2, h2, h3, h4, h5, h6, ?_⟩
      intro hvs2
      exact absurd hvs2 hvs

/-- Witness for C9's amended theorem: a concrete fully-successful update-path
publish against resource "7" (vendor "Other", images ["img1"], one variant
priced 10) ends with that resource carrying the new title, body, vendor
"AutoDropship", product type "Dropship" and variant price 5, while its images
are exactly as they were. -/
theorem update_path_effect_witness :
    ((syncProduct allOkEnv demoUpdateInput demoShop).2.1.resources.map
        (fun r => (r.id, r.images)) = [("7", ["img1"])]) ∧
    (∃ r2, findResource (syncProduct allOkEnv demoUpdateInput
        demoShop).2.1.resources "7" = some r2 ∧
      r2.title = "New" ∧ r2.bodyHtml = "new" ∧ r2.vendor = "AutoDropship" ∧
      r2.productType = "Dropship" ∧ r2.images = ["img1"] ∧
      (r2.variants.head?).map (fun v => v.price) = some 5) := by
  have h := update_path_effect allOkEnv demoUpdateInput demoShop "7" rfl
  constructor
  · rw [h.1]
    rfl
  · obtain ⟨r2, hfind2, h2, h3, h4, h5, h6, h7⟩ :=
      h.2 rfl rfl ⟨"7", "gid://shopify/Product/7", "Old", "old", "Other",
        "Misc", ["img1"], [⟨1, 10⟩], []⟩ rfl
    exact ⟨r2, hfind2, h2, h3, h4, h5, h6, h7 rfl ⟨1, 10⟩ rfl⟩

/-- Counterexample for C9 as stated: the update path does not modify "only
the mutable fields (title, body/description, and price)" — the same `PUT`
also overwrites the vendor (and product type). Concretely, a resource whose
vendor was "Other" has vendor "AutoDropship" after an update-path publish. -/
theorem update_path_modifies_vendor :
    ((syncProduct ⟨true, true, true, true, true, true, false⟩
        { title := "New", descriptionHtml := "new", price := 5,
          vendor := "AutoDropship", images := ["img2"], videoPath := none,
          existingProductId := some "7",
          existingProductGid := some "gid://shopify/Product/7",
          existingVideoMediaId := none }
        ⟨[⟨"7", "gid://shopify/Product/7", "Old", "old", "Other", "Misc",
            ["img1"], [⟨1, 10⟩], []⟩], 8, 0⟩).2.1.resources.map
        (fun r => r.vendor) = ["AutoDropship"]) ∧
    (([⟨"7", "gid://shopify/Product/7", "Old", "old", "Other", "Misc",
        ["img1"], [⟨1, 10⟩], []⟩] : List ShopifyResource).map
        (fun r => r.vendor) = ["Other"]) := by
  exact ⟨rfl, rfl⟩

theorem mediaPhase_media_outcomes (env : SyncEnv) (data : SyncProductInput)
    (shop : ShopifyState) (pid gid : String) (calls : List ApiCall)
    (path : String)
    (hv : data.videoPath = some path)
    (hm : data.existingVideoMediaId = none) :
    ((env.stagedUploadOk = false ∨ env.bytesUploadOk = false) →
      (mediaPhase env data shop pid gid calls).1 =
        Except.ok ⟨pid, gid, buildAdminUrl pid, none⟩) ∧
    (env.stagedUploadOk = true → env.bytesUploadOk = true →
      env.attachCallOk = true → env.attachUserErrors = true →
      (mediaPhase env data shop pid gid calls).1 =
        Except.ok ⟨pid, gid, buildAdminUrl pid, none⟩) ∧
    (env.stagedUploadOk = true → env.bytesUploadOk = true →
      env.attachCallOk = false →
      (mediaPhase env data shop pid gid calls).1 =
        Except.error "productCreateMedia request failed") := by
  refine ⟨?_, ?_, ?_⟩
  · intro hfail
    rcases hfail with h1 | h2
    · simp [mediaPhase, hv, hm, h1]
    · by_cases h1 : env.stagedUploadOk
      · simp [mediaPhase, hv, hm, h1, h2]
      · simp [mediaPhase, hv, hm, h1]
  · intro h1 h2 h3 h4
    simp [mediaPhase, hv, hm, h1, h2, h3, h4]
  · intro h1 h2 h3
    simp [mediaPhase, hv, hm, h1, h2, h3]

/-- C8 (amended): for a publish with a video file and no already-stored media
id, once the base create-or-update succeeded, a failure in phase (a)
(staged-upload target request) or phase (b) (byte upload) is caught inside
the adapter's `uploadVideo` try/catch and the publish still completes
successfully with a null media id; an attach call whose response reports
`mediaUserErrors` likewise degrades to a null media id; but an attach call
that itself throws is not caught — it propagates and fails the whole publish
(the unamended claim's third caught phase does not hold). -/
theorem media_phase_failures_degrade (env : SyncEnv)
    (data : SyncProductInput) (shop : ShopifyState) (path : String)
    (hv : data.videoPath = some path)
    (hm : data.existingVideoMediaId = none)
    (ht : env.tokenOk = true) (hb : env.baseCallOk = true) :
    ((env.stagedUploadOk = false ∨ env.bytesUploadOk = false) →
      ∃ r, (syncProduct env data shop).1 = Except.ok r ∧
        r.videoMediaId = none) ∧
    (env.stagedUploadOk = true → env.bytesUploadOk = true →
      env.attachCallOk = true → env.attachUserErrors = true →
      ∃ r, (syncProduct env data shop).1 = Except.ok r ∧
        r.videoMediaId = none) ∧
    (env.stagedUploadOk = true → env.bytesUploadOk = true →
      env.attachCallOk = false →
      ∃ e2, (syncProduct env data shop).1 = Except.error e2) := by
  rcases hx : data.existingProductId with _ | eid <;>
    refine ⟨fun hfail => ?_, fun h1 h2 h3 h4 => ?_, fun h1 h2 h3 => ?_⟩
  · apply Exists.intro
    constructor
    · simp [syncProduct, ht, hb, hx,
        (mediaPhase_media_outcomes env data _ _ _ _ path hv hm).1 hfail]
      rfl
    · rfl
  · apply Exists.intro
    constructor
    · simp [syncProduct, ht, hb, hx,
        (mediaPhase_media_outcomes env data _ _ _ _ path hv hm).2.1
          h1 h2 h3 h4]
      rfl
    · rfl
  · apply Exists.intro
    simp [syncProduct, ht, hb, hx,
      (mediaPhase_media_outcomes env data _ _ _ _ path hv hm).2.2 h1 h2 h3]
    rfl
  · apply Exists.intro
    constructor
    · simp [syncProduct, ht, hb, hx,
        (mediaPhase_media_outcomes env data _ _ _ _ path hv hm).1 hfail]
      rfl
    · rfl
  · apply Exists.intro
    constructor
    · simp [syncProduct, ht, hb, hx,
        (mediaPhase_media_outcomes env data _ _ _ _ path hv hm).2.1
          h1 h2 h3 h4]
      rfl
    · rfl
  · apply Exists.intro
    simp [syncProduct, ht, hb, hx,
      (mediaPhase_media_outcomes env data _ _ _ _ path hv hm).2.2 h1 h2 h3]
    rfl

/-- Witness for C8's amended theorem: with the staged-upload request failing,
a concrete create-path publish with a video still succeeds with a null media
id. -/
theorem media_phase_failures_degrade_witness :
    ∃ r, (syncProduct ⟨true, true, true, false, true, true, false⟩
        { title := "New", descriptionHtml := "d", price := 5,
          vendor := "AutoDropship", images := ["img1"],
          videoPath := some "/renders/video.mp4",
          existingProductId := none, existingProductGid := none,
          existingVideoMediaId := none }
        ⟨[], 1, 0⟩).1 = Except.ok r ∧ r.videoMediaId = none := by
  exact (media_phase_failures_degrade
    ⟨true, true, true, false, true, true, false⟩
    { title := "New", descriptionHtml := "d", price := 5,
      vendor := "AutoDropship", images := ["img1"],
      videoPath := some "/renders/video.mp4",
      existingProductId := none, existingProductGid := none,
      existingVideoMediaId := none }
    ⟨[], 1, 0⟩ "/renders/video.mp4" rfl rfl rfl rfl).1 (Or.inl rfl)

/-- Counterexample for C8 as stated: a thrown failure of the third media
phase — the separate attach call — is not caught inside the adapter: at this
concrete input (video present, staged upload and byte upload both succeeded,
attach request throws) the whole publish call fails instead of completing
successfully with a null media id. -/
theorem attach_throw_fails_publish :
    (syncProduct ⟨true, true, true, true, true, false, false⟩
        { title := "New", descriptionHtml := "d", price := 5,
          vendor := "AutoDropship", images := ["img1"],
          videoPath := some "/renders/video.mp4",
          existingProductId := none, existingProductGid := none,
          existingVideoMediaId := none }
        ⟨[], 1, 0⟩).1 =
      Except.error "productCreateMedia request failed" := rfl

theorem mediaPhase_no_create (env : SyncEnv) (data : SyncProductInput)
    (shop : ShopifyState) (pid gid : String) (calls : List ApiCall) :
    (ApiCall.createProduct ∉ calls →
      ApiCall.createProduct ∉ (mediaPhase env data shop pid gid calls).2.2) ∧
    (∀ r, (mediaPhase env data shop pid gid calls).1 = Except.ok r →
      r.productId = pid) := by
  constructor
  · intro hc
    rcases hv : data.videoPath with _ | path
    · simpa [mediaPhase, hv] using hc
    · rcases hm : data.existingVideoMediaId with _ | m
      · by_cases h1 : env.stagedUploadOk
        · by_cases h2 : env.bytesUploadOk
          · by_cases h3 : env.attachCallOk
            · by_cases h4 : env.attachUserErrors <;>
                simp [mediaPhase, hv, hm, h1, h2, h3, h4, hc]
            · simp [mediaPhase, hv, hm, h1, h2, h3, hc]
          · simp [mediaPhase, hv, hm, h1, h2, hc]
        · simp [mediaPhase, hv, hm, h1, hc]
      · simpa [mediaPhase, hv, hm] using hc
  · intro r hr
    rcases hv : data.videoPath with _ | path
    · simp [mediaPhase, hv] at hr
      subst hr
      rfl
    · rcases hm : data.existingVideoMediaId with _ | m
      · by_cases h1 : env.stagedUploadOk
        · by_cases h2 : env.bytesUploadOk
          · by_cases h3 : env.attachCallOk
            · by_cases h4 : env.attachUserErrors
              · simp [mediaPhase, hv, hm, h1, h2, h3, h4] at hr
                subst hr
                rfl
              · simp [mediaPhase, hv, hm, h1, h2, h3, h4] at hr
                subst hr
                rfl
            · simp [mediaPhase, hv, hm, h1, h2, h3] at hr
          · simp [mediaPhase, hv, hm, h1, h2] at hr
            subst hr
            rfl
        · simp [mediaPhase, hv, hm, h1] at hr
          subst hr
          rfl
      · simp [mediaPhase, hv, hm] at hr
        subst hr
        rfl

theorem syncProduct_existing_no_create (env : SyncEnv)
    (data : SyncProductInput) (shop : ShopifyState) (x : String)
    (hx : data.existingProductId = some x) :
    ApiCall.createProduct ∉ (syncProduct env data shop).2.2 ∧
    (∀ r, (syncProduct env data shop).1 = Except.ok r → r.productId = x) := by
  by_cases ht : env.tokenOk
  · by_cases hb : env.baseCallOk
    · by_cases hvs : env.variantStepOk
      · rcases hfind : (findResource (updateResourceBase shop.resources x data)
            x).bind (fun r => (r.variants.head?).map (fun v => v.id))
            with _ | vid
        · constructor
          · simp only [syncProduct]
            simp [ht, hb, hvs, hx, hfind]
            exact (mediaPhase_no_create env data _ _ _ _).1 (by simp)
          · intro r hr
            simp only [syncProduct] at hr
            simp [ht, hb, hvs, hx, hfind] at hr
            exact (mediaPhase_no_create env data _ _ _ _).2 r hr
        · constructor
          · simp only [syncProduct]
            simp [ht, hb, hvs, hx, hfind]
            exact (mediaPhase_no_create env data _ _ _ _).1 (by simp)
          · intro r hr
            simp only [syncProduct] at hr
            simp [ht, hb, hvs, hx, hfind] at hr
            exact (mediaPhase_no_create env data _ _ _ _).2 r hr
      · constructor
        · simp only [syncProduct]
          simp [ht, hb, hvs, hx]
          exact (mediaPhase_no_create env data _ _ _ _).1 (by simp)
        · intro r hr
          simp only [syncProduct] at hr
          simp [ht, hb, hvs, hx] at hr
          exact (mediaPhase_no_create env data _ _ _ _).2 r hr
    · constructor
      · simp [syncProduct, ht, hb, hx]
      · intro r hr
        simp [syncProduct, ht, hb, hx] at hr
  · constructor
    · simp [syncProduct, ht]
    · intro r hr
      simp [syncProduct, ht] at hr

theorem mediaPhase_calls_extend (env : SyncEnv) (data : SyncProductInput)
    (shop : ShopifyState) (pid gid : String) (calls : List ApiCall)
    (c : ApiCall) (hc : c ∈ calls) :
    c ∈ (mediaPhase env data shop pid gid calls).2.2 := by
  rcases hv : data.videoPath with _ | path
  · simpa [mediaPhase, hv] using hc
  · rcases hm : data.existingVideoMediaId with _ | m
    · by_cases h1 : env.stagedUploadOk
      · by_cases h2 : env.bytesUploadOk
        · by_cases h3 : env.attachCallOk
          · by_cases h4 : env.attachUserErrors <;>
              simp [mediaPhase, hv, hm, h1, h2, h3, h4, hc]
          · simp [mediaPhase, hv, hm, h1, h2, h3, hc]
        · simp [mediaPhase, hv, hm, h1, h2, hc]
      · simp [mediaPhase, hv, hm, h1, hc]
    · simpa [mediaPhase, hv, hm] using hc

theorem syncProduct_existing_issues_update (env : SyncEnv)
    (data : SyncProductInput) (shop : ShopifyState) (x : String)
    (hx : data.existingProductId = some x) (ht : env.tokenOk = true) :
    ApiCall.updateProduct x ∈ (syncProduct env data shop).2.2 := by
  by_cases hb : env.baseCallOk
  · by_cases hvs : env.variantStepOk
    · rcases hfind : (findResource (updateResourceBase shop.resources x data)
          x).bind (fun r => (r.variants.head?).map (fun v => v.id))
          with _ | vid
      · simp [syncProduct, ht, hb, hvs, hx, hfind]
        exact mediaPhase_calls_extend env data _ _ _ _ _ (by simp)
      · simp [syncProduct, ht, hb, hvs, hx, hfind]
        exact mediaPhase_calls_extend env data _ _ _ _ _ (by simp)
    · simp [syncProduct, ht, hb, hvs, hx]
      exact mediaPhase_calls_extend env data _ _ _ _ _ (by simp)
  · simp [syncProduct, ht, hb, hx]

theorem handleSync_issues_update (env : SyncEnv) (now : Nat) (pid : String)
    (vp : Option String) (s : BrainState) (p : Product)
    (copy : CopywritingResult) (x : String)
    (hp : findProduct s.products pid = some p)
    (hm : p.marketingCopy = some copy)
    (hx : p.shopifyProductId = some x)
    (ht : env.tokenOk = true) :
    ApiCall.updateProduct x ∈ (handleSync env now pid vp s).2 := by
  have hsx : (syncInputOf p copy vp).existingProductId = some x := by
    simp [syncInputOf, hx]
  have hupd := syncProduct_existing_issues_update env (syncInputOf p copy vp)
    s.shopify x hsx ht
  rcases hres : (syncProduct env (syncInputOf p copy vp) s.shopify).1
      with e | r
  · have heq : (handleSync env now pid vp s).2 =
        (syncProduct env (syncInputOf p copy vp) s.shopify).2.2 := by
      simp [handleSync, hp, hm, hres]
    rw [heq]
    exact hupd
  · have heq : (handleSync env now pid vp s).2 =
        (syncProduct env (syncInputOf p copy vp) s.shopify).2.2 := by
      simp [handleSync, hp, hm, hres]
    rw [heq]
    exact hupd

theorem handleSync_keeps_id (env : SyncEnv) (now : Nat) (pid : String)
    (vp : Option String) (s : BrainState) (p : Product) (x : String)
    (hp : findProduct s.products pid = some p)
    (hx : p.shopifyProductId = some x) :
    ApiCall.createProduct ∉ (handleSync env now pid vp s).2 ∧
    ∃ p2, findProduct (handleSync env now pid vp s).1.products pid = some p2 ∧
      p2.shopifyProductId = some x := by
  rcases hm : p.marketingCopy with _ | copy
  · constructor
    · simp [handleSync, hp, hm]
    · exact ⟨p, by simp [handleSync, hp, hm, hp], hx⟩
  · have hsx : (syncInputOf p copy vp).existingProductId = some x := by
      simp [syncInputOf, hx]
    have hnc := syncProduct_existing_no_create env (syncInputOf p copy vp)
      s.shopify x hsx
    rcases hres : (syncProduct env (syncInputOf p copy vp) s.shopify).1
        with e | r
    · constructor
      · have heq : (handleSync env now pid vp s).2 =
            (syncProduct env (syncInputOf p copy vp) s.shopify).2.2 := by
          simp [handleSync, hp, hm, hres]
        rw [heq]
        exact hnc.1
      · refine ⟨p, ?_, hx⟩
        have heq : (handleSync env now pid vp s).1.products = s.products := by
          simp [handleSync, hp, hm, hres]
        rw [heq]
        exact hp
    · have hrid : r.productId = x := hnc.2 r hres
      constructor
      · have heq : (handleSync env now pid vp s).2 =
            (syncProduct env (syncInputOf p copy vp) s.shopify).2.2 := by
          simp [handleSync, hp, hm, hres]
        rw [heq]
        exact hnc.1
      · have heq : (handleSync env now pid vp s).1.products =
            setProduct s.products pid
              { status := some ProductStatus.LISTED
                shopifyProductId := some (some r.productId)
                shopifyProductGid := some (some r.productGid)
                shopifyAdminUrl := some (some r.adminUrl)
                shopifyVideoMediaId := some r.videoMediaId
                listedAt := some (some now) } := by
          simp [handleSync, hp, hm, hres]
        rw [heq]
        refine ⟨applyUpdate p _, findProduct_setProduct_self _ _ _ _ hp, ?_⟩
        simp [applyUpdate, hrid]

theorem runPublishAttempts_no_create (pid x : String) :
    ∀ (attempts : List (SyncEnv × Nat × Option String)) (s : BrainState)
      (p : Product), findProduct s.products pid = some p →
      p.shopifyProductId = some x →
      ApiCall.createProduct ∉ (runPublishAttempts attempts pid s).2 := by
  intro attempts
  induction attempts with
  | nil =>
    intro s p hp hx
    simp [runPublishAttempts]
  | cons a rest ih =>
    intro s p hp hx
    obtain ⟨h1, p2, hp2, hx2⟩ :=
      handleSync_keeps_id a.1 a.2.1 pid a.2.2 s p x hp hx
    simp only [runPublishAttempts, List.mem_append]
    rintro (hmem | hmem)
    · exact h1 hmem
    · exact ih _ p2 hp2 hx2 hmem

/-- C1: for an item whose stored external id is `x`, every publish call (any
environment, clock and video path) issues no create call, and — whenever the
handler reaches the adapter at all (marketing copy stored) and the adapter
gets past its access-token guard — the update call on the existing external
resource `x` is among the calls it issues; the persisted external id is still
`x` after the call. Consequently, across any number of consecutive publish
attempts for that item, no create call is ever issued — at most one external
resource can ever exist for it. -/
theorem publish_idempotent_update_only
    (s : BrainState) (pid x : String) (p : Product)
    (hp : findProduct s.products pid = some p)
    (hx : p.shopifyProductId = some x) :
    (∀ (env : SyncEnv) (now : Nat) (vp : Option String),
      ApiCall.createProduct ∉ (handleSync env now pid vp s).2 ∧
      (∀ copy, p.marketingCopy = some copy → env.tokenOk = true →
        ApiCall.updateProduct x ∈ (handleSync env now pid vp s).2) ∧
      ∃ p2,
        findProduct (handleSync env now pid vp s).1.products pid = some p2 ∧
        p2.shopifyProductId = some x) ∧
    (∀ attempts : List (SyncEnv × Nat × Option String),
      ApiCall.createProduct ∉ (runPublishAttempts attempts pid s).2) := by
  constructor
  · intro env now vp
    obtain ⟨h1, h2⟩ := handleSync_keeps_id env now pid vp s p x hp hx
    refine ⟨h1, ?_, h2⟩
    intro copy hm ht
    exact handleSync_issues_update env now pid vp s p copy x hp hm hx ht
  · intro attempts
    exact runPublishAttempts_no_create pid x attempts s p hp hx

/-- Witness for C1: Scenario C — item "P3" already mapped to external
resource "42": a fully successful publish attempt issues the update call on
resource "42" and no create call, the stored external id is still "42"
afterwards, and a two-attempt run (one success, one upload failure) issues no
create call either. -/
theorem publish_idempotent_update_only_witness :
    (ApiCall.createProduct ∉
      (handleSync allOkEnv 3 "P3" none
        (stateWith [listedProduct "P3" "42"])).2) ∧
    (ApiCall.updateProduct "42" ∈
      (handleSync allOkEnv 3 "P3" none
        (stateWith [listedProduct "P3" "42"])).2) ∧
    (∃ p2,
      findProduct
        (handleSync allOkEnv 3 "P3" none
          (stateWith [listedProduct "P3" "42"])).1.products "P3" = some p2 ∧
      p2.shopifyProductId = some "42") ∧
    (ApiCall.createProduct ∉
      (runPublishAttempts
        [(allOkEnv, 3, none),
          (⟨true, true, true, false, true, true, false⟩, 4,
            some "/renders/v.mp4")]
        "P3" (stateWith [listedProduct "P3" "42"])).2) := by
  have h := publish_idempotent_update_only
    (stateWith [listedProduct "P3" "42"]) "P3" "42" (listedProduct "P3" "42")
    (by decide) (by decide)
  obtain ⟨h1, h2, h3⟩ := h.1 allOkEnv 3 none
  exact ⟨h1, h2 ⟨"Cool gadget", "Great item", ["hook"]⟩ (by decide) rfl,
    h3, h.2 _⟩

end Dropship
